import Mathlib

/-!
Shallow embedding of the Vista travel-site client script (src/script.js)
and proofs about the behaviours its specification describes.

Conventions used throughout:
* JS `NaN` produced by integer index arithmetic is modelled as `none` in
  `Option Nat`; a well-defined index `i` is `some i`.
* A thrown JS `TypeError` (dereferencing `undefined`) is modelled by the
  `JSError` type; handlers that can throw return the state reached at the
  point of the throw together with `Option JSError`.
* Class lists are modelled one class at a time: the datum "element `e`
  carries class `c`" is a boolean / membership fact, since `classList.add`
  and `classList.remove` of distinct classes are independent writes.
-/

/-- JavaScript runtime errors the embedded handlers can raise. -/
inductive JSError where
  | typeError
deriving DecidableEq

/-! ## TestimonialsSlider (script.js lines 303-365)

State of the testimonial carousel.  `createDots` builds exactly one dot per
card, so after construction the dot collection has the same length as the
card collection; `numCards` bounds both.  `activeCards` / `activeDots` hold
the indices of the cards / dots currently carrying the `active` class. -/
structure Slider where
  numCards : Nat
  currentSlide : Option Nat
  activeCards : Finset Nat
  activeDots : Finset Nat
  autoPlay : Bool
  intervalActive : Bool
deriving DecidableEq

/-- The interval callback's index computation
`(this.currentSlide + 1) % this.cards.length` under JS number semantics:
`NaN + 1 = NaN`, and `x % 0 = NaN`. -/
def jsNextIndex : Option Nat → Nat → Option Nat
  | none, _ => none
  | some c, n => if n = 0 then none else some ((c + 1) % n)

/-- `goToSlide(index)` (lines 347-354): removes `active` from every card and
every dot, then dereferences `this.cards[index]` — which is `undefined` when
`index` is `NaN` or out of range, so `.classList` throws a `TypeError` there,
after the removals but before `this.currentSlide = index` is reached. -/
def goToSlide (s : Slider) (index : Option Nat) : Slider × Option JSError :=
  let s1 : Slider := { s with activeCards := ∅, activeDots := ∅ }
  match index with
  | some i =>
      if i < s.numCards then
        ({ s1 with activeCards := {i}, activeDots := {i}, currentSlide := some i }, none)
      else (s1, some .typeError)
  | none => (s1, some .typeError)

/-- Events the slider reacts to.  `dotClick i` exists only for an existing
dot, i.e. `i < numCards`, because listeners are attached per built dot. -/
inductive SliderEvent where
  | tick
  | mouseEnter
  | mouseLeave
  | dotClick (i : Nat)

/-- One event step of `TestimonialsSlider` (lines 313-364).
* `tick`: the `setInterval` callback; it fires whenever the interval is
  active — it does NOT consult `autoPlay` — assigns
  `this.currentSlide = (this.currentSlide + 1) % this.cards.length` and then
  calls `goToSlide(this.currentSlide)`.
* `mouseEnter`: sets `this.autoPlay = false` and nothing else; in
  particular the interval is not cleared.
* `mouseLeave`: sets `this.autoPlay = true` then calls `startAutoPlay`,
  whose guard passes, so the interval is cleared and restarted.
* `dotClick i`: calls `goToSlide(i)`; no listener exists for `i ≥ numCards`,
  in which case the event does not occur (modelled as a no-op). -/
def sliderStep (s : Slider) : SliderEvent → Slider × Option JSError
  | .tick =>
      if s.intervalActive then
        let idx := jsNextIndex s.currentSlide s.numCards
        goToSlide { s with currentSlide := idx } idx
      else (s, none)
  | .mouseEnter => ({ s with autoPlay := false }, none)
  | .mouseLeave => ({ s with autoPlay := true, intervalActive := true }, none)
  | .dotClick i => if i < s.numCards then goToSlide s (some i) else (s, none)

/-- The slider right after construction and `init` over `n` cards: the markup
marks the first card active, `createDots` marks dot 0 active (when a dot
exists), `currentSlide = 0`, `autoPlay = true`, and `startAutoPlay` has
installed the interval. -/
def initSlider (n : Nat) : Slider :=
  { numCards := n
    currentSlide := some 0
    activeCards := if n = 0 then ∅ else {0}
    activeDots := if n = 0 then ∅ else {0}
    autoPlay := true
    intervalActive := true }

/-- `k` consecutive interval ticks (ignoring the error component, which is
`none` on every tick taken from a healthy state). -/
def tickN (s : Slider) : Nat → Slider
  | 0 => s
  | k + 1 => (sliderStep (tickN s k) .tick).1

theorem sliderStep_tick_healthy (s : Slider) (c : Nat)
    (hi : s.intervalActive = true) (hc : s.currentSlide = some c)
    (hlt : c < s.numCards) :
    sliderStep s .tick =
      ({ s with currentSlide := some ((c + 1) % s.numCards),
                activeCards := {(c + 1) % s.numCards},
                activeDots := {(c + 1) % s.numCards} }, none) := by
  have hn : s.numCards ≠ 0 := by omega
  have h2 : (c + 1) % s.numCards < s.numCards := Nat.mod_lt _ (by omega)
  simp [sliderStep, hi, hc, jsNextIndex, hn, goToSlide, h2]

theorem tickN_initSlider (n : Nat) (hn : 1 ≤ n) (k : Nat) :
    tickN (initSlider n) k =
      { numCards := n, currentSlide := some (k % n), activeCards := {k % n},
        activeDots := {k % n}, autoPlay := true, intervalActive := true } := by
  induction k with
  | zero => simp [tickN, initSlider, show n ≠ 0 by omega]
  | succ k ih =>
      have hlt : k % n < n := Nat.mod_lt _ (by omega)
      rw [tickN, ih, sliderStep_tick_healthy _ (k % n) rfl rfl hlt]
      simp [Nat.mod_add_mod]

/-- C5: for every N ≥ 1 testimonial cards, starting from active index 0,
applying the timed advance N times returns the active index to 0 (the card
and dot marked active are again those of index 0), and after each of the
transitions exactly one card and one dot carry the `active` class. -/
theorem testimonials_cycle (n k : Nat) (hn : 1 ≤ n) (_hk1 : 1 ≤ k)
    (_hkn : k ≤ n) :
    (tickN (initSlider n) n).currentSlide = some 0 ∧
    (tickN (initSlider n) n).activeCards = {0} ∧
    (tickN (initSlider n) n).activeDots = {0} ∧
    (tickN (initSlider n) k).activeCards.card = 1 ∧
    (tickN (initSlider n) k).activeDots.card = 1 := by
  rw [tickN_initSlider n hn n, tickN_initSlider n hn k]
  simp [Nat.mod_self]

/-- Witness for C5 at N = 3 cards, checked after the second transition. -/
theorem testimonials_cycle_witness :
    (tickN (initSlider 3) 3).currentSlide = some 0 ∧
    (tickN (initSlider 3) 3).activeCards = {0} ∧
    (tickN (initSlider 3) 3).activeDots = {0} ∧
    (tickN (initSlider 3) 2).activeCards.card = 1 ∧
    (tickN (initSlider 3) 2).activeDots.card = 1 :=
  testimonials_cycle 3 2 (by decide) (by decide) (by decide)

/-- C3 counterexample: constructed over zero cards, the very first timed
advance is not an inert no-op — it raises a `TypeError` (indexing the empty
card collection with `NaN`) and changes the controller state, resetting
`currentSlide` from 0 to `NaN`. -/
theorem zero_cards_tick_throws :
    (sliderStep (initSlider 0) .tick).2 = some .typeError ∧
    (sliderStep (initSlider 0) .tick).1.currentSlide = none ∧
    (initSlider 0).currentSlide = some 0 := by decide

/-- C3 amended: over zero cards the timed advance leaves the document
unchanged (there is no card or dot whose classes could change), but it is
not a silent no-op: it sets the internal slide index to `NaN` and throws a
`TypeError` when `this.cards[NaN].classList` dereferences `undefined`. -/
theorem zero_cards_tick (s : Slider) (h0 : s.numCards = 0)
    (hi : s.intervalActive = true) (hc : s.activeCards = ∅)
    (hd : s.activeDots = ∅) :
    sliderStep s .tick = ({ s with currentSlide := none }, some .typeError) := by
  obtain ⟨n, cur, ac, ad, ap, ia⟩ := s
  simp only at h0 hi hc hd
  subst h0 hi hc hd
  cases cur <;> simp [sliderStep, jsNextIndex, goToSlide]

/-- Witness for C3's amended statement, at the freshly initialised
zero-card slider. -/
theorem zero_cards_tick_witness :
    sliderStep (initSlider 0) .tick =
      ({ initSlider 0 with currentSlide := none }, some .typeError) :=
  zero_cards_tick (initSlider 0) rfl rfl (by decide) (by decide)

/-- C1: evaluation of the code at the failing input.  With 3 cards and
autoplay running, a pointer-hover-enter (`mouseenter`) followed by one
5000 ms interval tick — with no intervening hover-leave — advances the
active slide from 0 to 1: `mouseenter` only sets `autoPlay = false`, it
does not clear the interval, and the interval callback never consults
`autoPlay`, so automatic advance continues during hover (contradicting the
source's own `Pause on hover` comment). -/
theorem hover_does_not_pause :
    ((sliderStep (sliderStep (initSlider 3) .mouseEnter).1 .tick).1.currentSlide
       = some 1) ∧
    ((sliderStep (sliderStep (initSlider 3) .mouseEnter).1 .tick).1.activeCards
       = {1}) ∧
    (sliderStep (initSlider 3) .mouseEnter).1.autoPlay = false ∧
    (sliderStep (initSlider 3) .mouseEnter).1.intervalActive = true := by
  decide

/-! ## DestinationFilter (script.js lines 271-298)

Each filter button carries a fixed `data-filter` string; each destination
card carries a fixed `data-category` string together with its mutable
`hidden` class flag and inline `animation` style. -/
structure FCard where
  category : String
  hidden : Bool
  anim : String
deriving DecidableEq

structure FilterState where
  btnFilters : List String
  activeBtns : Finset Nat
  cards : List FCard
deriving DecidableEq

/-- `filter(category)` (lines 288-297): a card matching the wildcard or its
own category loses the `hidden` class and gets the fade-in inline
animation; any other card gains the `hidden` class. -/
def applyFilter (category : String) (cards : List FCard) : List FCard :=
  cards.map fun card =>
    if category = "all" ∨ card.category = category then
      { card with hidden := false, anim := "fadeIn 0.5s ease forwards" }
    else { card with hidden := true }

/-- The click handler of filter button `i` (lines 279-285): removes `active`
from every filter button, adds it to the clicked one, then filters the cards
by the clicked button's `data-filter` value. -/
def clickBtn (s : FilterState) (i : Nat) : FilterState :=
  { s with activeBtns := {i},
           cards := applyFilter (s.btnFilters.getD i ("")) s.cards }

/-- A sequence of filter-button clicks, applied left to right. -/
def clickSeq (s : FilterState) (seq : List Nat) : FilterState :=
  seq.foldl clickBtn s

theorem clickBtn_btnFilters (s : FilterState) (i : Nat) :
    (clickBtn s i).btnFilters = s.btnFilters := rfl

theorem clickSeq_btnFilters (s : FilterState) (seq : List Nat) :
    (clickSeq s seq).btnFilters = s.btnFilters := by
  induction seq generalizing s with
  | nil => rfl
  | cons j t ih => exact ih (clickBtn s j)

theorem applyFilter_hidden (category : String) (cards : List FCard) :
    ∀ card ∈ applyFilter category cards,
      card.hidden = false ↔ (category = "all" ∨ card.category = category) := by
  intro card hmem
  rcases List.mem_map.mp hmem with ⟨orig, _, rfl⟩
  by_cases h : category = "all" ∨ orig.category = category <;> simp [h]

/-- C4: for every sequence of one or more clicks on (existing) filter
buttons, after each click exactly one filter button carries the `active`
state — namely the one just clicked — and a destination card is visible
(not flagged `hidden`) iff the selected filter value is the wildcard
`all` or equals the card's declared category.  Since every nonempty click
sequence decomposes as `seq ++ [i]` and every prefix is itself such a
sequence, the statement is given for the state after the final click `i`. -/
theorem filter_invariant (s : FilterState) (seq : List Nat) (i : Nat)
    (_hseq : ∀ j ∈ seq, j < s.btnFilters.length)
    (_hi : i < s.btnFilters.length) :
    (clickSeq s (seq ++ [i])).activeBtns = {i} ∧
    (clickSeq s (seq ++ [i])).activeBtns.card = 1 ∧
    ∀ card ∈ (clickSeq s (seq ++ [i])).cards,
      card.hidden = false ↔
        (s.btnFilters.getD i ("") = "all" ∨
         card.category = s.btnFilters.getD i ("")) := by
  have hsplit : clickSeq s (seq ++ [i]) = clickBtn (clickSeq s seq) i := by
    simp [clickSeq, List.foldl_append]
  rw [hsplit]
  have hfil : (clickSeq s seq).btnFilters = s.btnFilters := clickSeq_btnFilters s seq
  refine ⟨rfl, by simp [clickBtn], ?_⟩
  intro card hmem
  have := applyFilter_hidden ((clickSeq s seq).btnFilters.getD i ("")) (clickSeq s seq).cards card ?_
  · rwa [hfil] at this
  · simpa [clickBtn] using hmem

/-- Witness for C4: two buttons (`all` and `beach`), two cards, click
sequence `[0]` then final click on button 1. -/
theorem filter_invariant_witness :
    (clickSeq ⟨[("all"), ("beach")], ∅,
        [⟨("beach"), true, ("")⟩, ⟨("city"), false, ("")⟩]⟩ ([0] ++ [1])).activeBtns = {1} ∧
    (clickSeq ⟨[("all"), ("beach")], ∅,
        [⟨("beach"), true, ("")⟩, ⟨("city"), false, ("")⟩]⟩ ([0] ++ [1])).activeBtns.card = 1 ∧
    ∀ card ∈ (clickSeq ⟨[("all"), ("beach")], ∅,
        [⟨("beach"), true, ("")⟩, ⟨("city"), false, ("")⟩]⟩ ([0] ++ [1])).cards,
      card.hidden = false ↔
        (([("all"), ("beach")] : List String).getD 1 ("") = "all" ∨
         card.category = ([("all"), ("beach")] : List String).getD 1 ("")) :=
  filter_invariant ⟨[("all"), ("beach")], ∅,
      [⟨("beach"), true, ("")⟩, ⟨("city"), false, ("")⟩]⟩ [0] 1
    (by decide) (by decide)

/-! ## ScrollProgress (script.js lines 170-184) -/

/-- The throttled scroll handler's computation:
`scrollPercent = (scrollTop / (scrollHeight - innerHeight)) * 100`, assigned
to the progress bar's width.  When `scrollHeight - innerHeight = 0` the JS
division yields `NaN` (or `±Infinity`), an unguarded non-finite value,
modelled as `none`. -/
def scrollPercent (scrollTop scrollHeight innerHeight : ℚ) : Option ℚ :=
  if scrollHeight - innerHeight = 0 then none
  else some (scrollTop / (scrollHeight - innerHeight) * 100)

/-- C7: for every scroll position between 0 and
`documentHeight - viewportHeight` with the document strictly taller than the
viewport, the progress-bar width percentage is exactly
`100 * scrollTop / (documentHeight - viewportHeight)`; and when the document
height equals the viewport height the division by zero is unguarded (no
finite percentage is produced). -/
theorem scroll_progress_width (scrollTop dh vh top2 : ℚ) (hgt : vh < dh)
    (_h0 : 0 ≤ scrollTop) (_hle : scrollTop ≤ dh - vh) :
    scrollPercent scrollTop dh vh = some (100 * scrollTop / (dh - vh)) ∧
    scrollPercent top2 vh vh = none := by
  have hne : dh - vh ≠ 0 := by
    intro h
    have : dh = vh := by linarith
    exact absurd this (by intro h2; rw [h2] at hgt; exact lt_irrefl _ hgt)
  constructor
  · rw [scrollPercent, if_neg hne]
    congr 1
    field_simp
    ring
  · simp [scrollPercent]

/-- Witness for C7: scrollTop 50, document height 300, viewport 100. -/
theorem scroll_progress_width_witness :
    scrollPercent 50 300 100 = some (100 * 50 / ((300 : ℚ) - 100)) ∧
    scrollPercent 7 100 100 = none :=
  scroll_progress_width 50 300 100 7 (by norm_num) (by norm_num) (by norm_num)

/-! ## SearchModal (script.js lines 370-411) -/

/-- Mutable state the search-overlay controller touches: whether the modal
carries the `active` class, and the body's inline `overflow` style. -/
structure SearchModalState where
  active : Bool
  bodyOverflow : String
deriving DecidableEq

/-- Possible targets of a click dispatched to the modal's listener. -/
inductive SMTarget where
  | modalBackdrop
  | content
  | closeBtn
deriving DecidableEq

inductive SMEvent where
  | openClick
  | closeClick
  | modalClick (t : SMTarget)
  | escapeKey

/-- `close()` (lines 407-410). -/
def smClose (_s : SearchModalState) : SearchModalState :=
  { active := false, bodyOverflow := "" }

/-- `open()` (lines 401-405); the delayed input focus is not DOM state of
this controller's embedding. -/
def smOpen (_s : SearchModalState) : SearchModalState :=
  { active := true, bodyOverflow := "hidden" }

/-- Event dispatch of `SearchModal.init` (lines 379-399): the trigger
button opens; the close button closes; a click on the overlay closes only
when `e.target` is the overlay element itself; Escape closes only while the
modal carries the `active` class. -/
def smStep (s : SearchModalState) : SMEvent → SearchModalState
  | .openClick => smOpen s
  | .closeClick => smClose s
  | .modalClick t => if t = .modalBackdrop then smClose s else s
  | .escapeKey => if s.active then smClose s else s

/-- C8: starting from the open state, pressing Escape closes the overlay; a
click whose target is the overlay backdrop itself closes it; a click whose
target is inside the overlay content leaves it open (and the state entirely
unchanged). -/
theorem search_modal_transitions (s : SearchModalState)
    (h : s.active = true) :
    (smStep s .escapeKey).active = false ∧
    (smStep s (.modalClick .modalBackdrop)).active = false ∧
    smStep s (.modalClick .content) = s := by
  refine ⟨?_, ?_, ?_⟩ <;> simp [smStep, smClose, h]

/-- Witness for C8 at the state produced by opening the overlay. -/
theorem search_modal_transitions_witness :
    (smStep ⟨true, ("hidden")⟩ .escapeKey).active = false ∧
    (smStep ⟨true, ("hidden")⟩ (.modalClick .modalBackdrop)).active = false ∧
    smStep ⟨true, ("hidden")⟩ (.modalClick .content) = ⟨true, ("hidden")⟩ :=
  search_modal_transitions ⟨true, ("hidden")⟩ rfl

/-! ## GalleryLightbox (script.js lines 545-632) -/

/-- Document-level node counts the lightbox controller touches: how many
`.lightbox` overlay nodes are attached, and how many of the style nodes
injected by `openLightbox` are attached. -/
structure LightboxDoc where
  overlayCount : Nat
  styleCount : Nat
deriving DecidableEq

inductive LbEvent where
  | closeBtnClick
  | overlayClick (targetIsOverlay : Bool)
  | escapeKey

/-- `openLightbox` (lines 559-631): creates one overlay node and one style
node and appends both to the document. -/
def openLightbox (d : LightboxDoc) : LightboxDoc :=
  { overlayCount := d.overlayCount + 1, styleCount := d.styleCount + 1 }

/-- `lightbox.remove(); style.remove();` — the teardown all three dismissal
listeners perform. -/
def removeLightbox (d : LightboxDoc) : LightboxDoc :=
  { overlayCount := d.overlayCount - 1, styleCount := d.styleCount - 1 }

/-- Dismissal dispatch for one open lightbox (lines 613-630): the close
button always tears down; a click on the overlay tears down only when
`e.target` is the overlay itself; the document-level Escape listener always
tears down. -/
def lightboxStep (d : LightboxDoc) : LbEvent → LightboxDoc
  | .closeBtnClick => removeLightbox d
  | .overlayClick t => if t then removeLightbox d else d
  | .escapeKey => removeLightbox d

/-- C9: opening a lightbox and dismissing it by any of the three paths
(close-button click, click on the backdrop outside the content, Escape)
returns the document to its previous node counts — in particular, from an
empty document, zero lightbox overlay nodes and zero injected style nodes
remain; and a click inside the content does not tear down. -/
theorem lightbox_teardown (d : LightboxDoc) :
    lightboxStep (openLightbox d) .closeBtnClick = d ∧
    lightboxStep (openLightbox d) (.overlayClick true) = d ∧
    lightboxStep (openLightbox d) .escapeKey = d := by
  refine ⟨?_, ?_, ?_⟩ <;> simp [lightboxStep, openLightbox, removeLightbox]

/-! ## LikeButtonHandler (script.js lines 713-736) -/

/-- State triple (plus the separated icon classes) of one like button: the
button's `liked` class, the icon's `far` and `fas` classes, and the icon's
inline color. -/
structure LikeState where
  liked : Bool
  iconFar : Bool
  iconFas : Bool
  iconColor : String
deriving DecidableEq

/-- The click handler (lines 720-734): toggles the `liked` class, then
branches on whether the button now carries it. -/
def likeClick (s : LikeState) : LikeState :=
  let liked' := !s.liked
  if liked' then
    { liked := liked', iconFar := false, iconFas := true,
      iconColor := "#e94560" }
  else
    { liked := liked', iconFar := true, iconFas := false, iconColor := "" }

/-- The unliked state the claim starts from: no `liked` class, icon in the
`far` style, empty inline color. -/
def unlikedState : LikeState := ⟨false, true, false, ("")⟩

/-- The liked state: `liked` class present, icon in the `fas` style, inline
color `#e94560`. -/
def likedState : LikeState := ⟨true, false, true, ("#e94560")⟩

/-- C10: from the unliked state one click yields exactly the liked state and
a second click restores exactly the unliked state — the click toggle is an
involution on this state triple. -/
theorem like_toggle_involution :
    likeClick unlikedState = likedState ∧
    likeClick (likeClick unlikedState) = unlikedState := by decide

/-! ## CounterAnimation (script.js lines 226-266)

The `data-count` attribute of a counter is the decimal numeral of a natural
number `n`; `parseInt` recovers `n`, and the string comparison
`counter.dataset.count === '10'` compares that numeral with the literal
`'10'`.  The decimal rendering of JS integers is embedded below together
with a round-trip proof, so that the string comparison can be related to
`n = 10`. -/

/-- Value of a big-endian digit list. -/
def digitsVal (l : List Nat) : Nat := l.foldl (fun a d => 10 * a + d) 0

/-- Fuel-driven big-endian decimal digits; `decDigits` supplies enough
fuel. -/
def decDigitsAux : Nat → Nat → List Nat
  | 0, _ => []
  | f + 1, n => if n < 10 then [n] else decDigitsAux f (n / 10) ++ [n % 10]

/-- Decimal digits of `n`, most significant first. -/
def decDigits (n : Nat) : List Nat := decDigitsAux (n + 1) n

/-- Digit `d < 10` rendered as its ASCII character. -/
def digitChar (d : Nat) : Char := Char.ofNat (48 + d)

/-- JS `String(n)` for a nonnegative integer `n`. -/
def jsNumStr (n : Nat) : String := String.mk ((decDigits n).map digitChar)

theorem digitsVal_append_one (l : List Nat) (d : Nat) :
    digitsVal (l ++ [d]) = 10 * digitsVal l + d := by
  simp [digitsVal, List.foldl_append]

theorem digitsVal_decDigitsAux (f : Nat) :
    ∀ n, n < f → digitsVal (decDigitsAux f n) = n := by
  induction f with
  | zero => intro n hn; omega
  | succ f ih =>
      intro n hn
      by_cases h : n < 10
      · simp [decDigitsAux, h, digitsVal]
      · have hpos : 0 < n := by omega
        have hdiv : n / 10 < n := Nat.div_lt_self hpos (by omega)
        rw [decDigitsAux, if_neg h, digitsVal_append_one, ih (n / 10) (by omega)]
        omega

theorem digitsVal_decDigits (n : Nat) : digitsVal (decDigits n) = n :=
  digitsVal_decDigitsAux (n + 1) n (Nat.lt_succ_self n)

theorem decDigitsAux_lt_ten (f : Nat) :
    ∀ n, ∀ d ∈ decDigitsAux f n, d < 10 := by
  induction f with
  | zero => intro n d hd; simp [decDigitsAux] at hd
  | succ f ih =>
      intro n d hd
      by_cases h : n < 10
      · simp [decDigitsAux, h] at hd; omega
      · rw [decDigitsAux, if_neg h] at hd
        rcases List.mem_append.mp hd with hmem | hmem
        · exact ih (n / 10) d hmem
        · simp at hmem; omega

theorem digitChar_eq_iff (d e : Nat) (hd : d < 10) (he : e < 10) :
    digitChar d = digitChar e ↔ d = e := by
  constructor
  · intro h
    interval_cases d <;> interval_cases e <;> first | rfl | (exact absurd h (by decide))
  · intro h; rw [h]

/-- The decimal rendering is injective: only `n = 10` renders as `"10"`. -/
theorem jsNumStr_eq_ten (n : Nat) (h : jsNumStr n = "10") : n = 10 := by
  have hdata : (decDigits n).map digitChar = ['1', '0'] := by
    have := congrArg String.data h
    simpa [jsNumStr] using this
  have hlt : ∀ d ∈ decDigits n, d < 10 := decDigitsAux_lt_ten (n + 1) n
  obtain ⟨d1, l1, hcons⟩ : ∃ d1 l1, decDigits n = d1 :: l1 := by
    cases hl : decDigits n with
    | nil => rw [hl] at hdata; simp at hdata
    | cons a b => exact ⟨a, b, rfl⟩
  rw [hcons] at hdata hlt
  obtain ⟨d0, l0, hcons0⟩ : ∃ d0 l0, l1 = d0 :: l0 := by
    cases hl : l1 with
    | nil => rw [hl] at hdata; simp at hdata
    | cons a b => exact ⟨a, b, rfl⟩
  rw [hcons0] at hdata hlt
  have hnil : l0 = [] := by
    cases hl : l0 with
    | nil => rfl
    | cons a b => rw [hl] at hdata; simp at hdata
  rw [hnil] at hdata hcons0
  simp only [List.map_cons, List.map_nil, List.cons.injEq, and_true] at hdata
  have h1 : d1 = 1 := by
    have hb : d1 < 10 := hlt d1 (by simp)
    have : digitChar d1 = digitChar 1 := by
      rw [hdata.1]; decide
    exact (digitChar_eq_iff d1 1 hb (by omega)).mp this
  have h0 : d0 = 0 := by
    have hb : d0 < 10 := hlt d0 (by simp)
    have : digitChar d0 = digitChar 0 := by
      rw [hdata.2]; decide
    exact (digitChar_eq_iff d0 0 hb (by omega)).mp this
  have hval := digitsVal_decDigits n
  rw [hcons, hcons0, h1, h0] at hval
  simpa [digitsVal] using hval.symm

/-- The `K+`-suffix choice of `animateCounter` (lines 257 and 260):
`counter.dataset.count === '10' ? '' : 'K+'`. -/
def counterSuffix (countAttr : String) : String :=
  if countAttr = "10" then ("") else ("K+")

/-- The `updateCounter` animation-frame loop (lines 254-262) for a counter
with parsed target `n` (so `step = n / (2000 / 16) = n / 125`), with `fuel`
bounding the number of frames still available.  Each running frame writes
the floored current value plus the suffix into the counter's text; the
terminal frame writes the target itself plus the suffix.  JS float
arithmetic on these small quantities is modelled exactly over `ℚ`; only the
terminal write — which does not depend on `current` — matters to the final
text. -/
def updateCounterLoop (n : Nat) : Nat → ℚ → String → Option String
  | 0, _, _ => none
  | fuel + 1, current, _text =>
      if current + (n : ℚ) / 125 < (n : ℚ) then
        updateCounterLoop n fuel (current + (n : ℚ) / 125)
          (jsNumStr (Int.toNat ⌊current + (n : ℚ) / 125⌋) ++
            counterSuffix (jsNumStr n))
      else
        some (jsNumStr n ++ counterSuffix (jsNumStr n))

/-- `animateCounter` (lines 248-265): starts the loop at `current = 0`; the
result is `some finalText` when the animation completes within `fuel`
frames. -/
def animateCounter (n fuel : Nat) : Option String :=
  updateCounterLoop n fuel 0 ("")

theorem updateCounterLoop_final (n : Nat) (s : String) :
    ∀ fuel current text,
      updateCounterLoop n fuel current text = some s →
      s = jsNumStr n ++ counterSuffix (jsNumStr n) := by
  intro fuel
  induction fuel with
  | zero => intro current text h; simp [updateCounterLoop] at h
  | succ fuel ih =>
      intro current text h
      rw [updateCounterLoop] at h
      by_cases hc : current + (n : ℚ) / 125 < (n : ℚ)
      · rw [if_pos hc] at h
        exact ih _ _ h
      · rw [if_neg hc] at h
        exact (Option.some.injEq _ _ ▸ h).symm

/-- C6: when the counter animation completes, a counter whose declared
target is 10 has final text exactly `"10"`, and a counter with any other
target `n` has final text exactly the decimal rendering of `n` followed by
`"K+"`. -/
theorem counter_final_text (n fuel : Nat) (s : String)
    (h : animateCounter n fuel = some s) :
    s = if n = 10 then ("10") else jsNumStr n ++ "K+" := by
  have hs := updateCounterLoop_final n s fuel 0 ("") h
  by_cases h10 : n = 10
  · subst h10
    rw [if_pos rfl, hs]
    decide
  · rw [if_neg h10, hs, counterSuffix,
      if_neg (fun hc => h10 (jsNumStr_eq_ten n hc))]

/-- Witness for C6 at target 0 (the loop terminates on its first frame
since `0 + 0 / 125 < 0` fails). -/
theorem counter_final_text_witness :
    ("0K+" : String) = if (0 : Nat) = 10 then ("10") else jsNumStr 0 ++ "K+" :=
  counter_final_text 0 1 ("0K+") (by
    rw [animateCounter, updateCounterLoop, if_neg (by norm_num)]
    decide)

/-! ## Controller write sets (whole of script.js, bootstrap lines 741-758)

For claim C2 each controller instantiated by `initApp` is paired with the
set of DOM data it mutates, transcribed handler by handler from the source.
A datum is one independently writable piece of DOM state: one class on one
element, one inline style property of one element, one element's text
content, one element's (wholesale replaced) child list, the presence of one
controller-created node, or one form's field values.  Collections queried
by class name are indexed by `Nat`; a nav link additionally records whether
it carries the `data-scroll` attribute, since `Navigation` binds its
click handler only to `.nav-link[data-scroll]` links while `ActiveNavLink`
rewrites the `active` class of every `.nav-link`. -/
inductive Elem where
  | body
  | loaderEl
  | navbar
  | hamburger
  | navMenu
  | navLink (i : Nat) (dataScroll : Bool)
  | dropdownItem (i : Nat)
  | progressBar
  | animateEl (i : Nat)
  | counterEl (i : Nat)
  | filterBtn (i : Nat)
  | destCard (i : Nat)
  | dotsContainer
  | testimonialCard (i : Nat)
  | sliderDot (i : Nat)
  | searchModalEl
  | backToTopBtn
  | contactForm
  | newsletterForm
  | notificationNode (i : Nat)
  | notificationStyle (i : Nat)
  | lightboxNode (i : Nat)
  | lightboxStyle (i : Nat)
  | mountain (i : Nat)
  | cloud (i : Nat)
  | heroContent
  | cardBtn (i : Nat)
  | cardIcon (i : Nat)
deriving DecidableEq

inductive Datum where
  | classOf (e : Elem) (cls : String)
  | styleOf (e : Elem) (prop : String)
  | textOf (e : Elem)
  | childListOf (e : Elem)
  | presenceOf (e : Elem)
  | fieldValuesOf (e : Elem)
deriving DecidableEq

/-- The fourteen controllers `initApp` instantiates. -/
inductive Ctl where
  | loader
  | navigation
  | scrollProgress
  | scrollAnimations
  | counterAnimation
  | destinationFilter
  | testimonialsSlider
  | searchModal
  | backToTop
  | formHandler
  | galleryLightbox
  | parallaxEffect
  | activeNavLink
  | likeButtonHandler
deriving DecidableEq

/-- The set of DOM data each controller's handlers write, read off the
source:
* `Loader.hide` (84-87): loader `hidden` class; body inline overflow.
* `Navigation` (110-164): navbar `scrolled`; hamburger `active`;
  nav-menu `active`; body overflow; each dropdown item's `active`; the
  `active` class of each `.nav-link[data-scroll]` link.
* `ScrollProgress` (176-183): progress-bar width.
* `ScrollAnimations` (195-220): `animated` class of each `[data-animate]`
  element.
* `CounterAnimation` (248-265): each counter's text content.
* `DestinationFilter` (278-297): each filter button's `active`; each
  destination card's `hidden` class and inline animation.
* `TestimonialsSlider` (313-364): the dots container's child list
  (`innerHTML` rebuild); each testimonial card's and each dot's `active`.
* `SearchModal` (379-410): modal `active`; body overflow.
* `BackToTop` (422-439): button `visible` class.
* `FormHandler` (462-539): presence of each created notification node and
  injected notification style node; the two forms' field values (`reset`).
* `GalleryLightbox` (551-631): presence of each created lightbox node and
  injected lightbox style node.
* `ParallaxEffect` (645-673): each mountain's and cloud's transform; hero
  content opacity and transform.
* `ActiveNavLink` (685-707): the `active` class of every `.nav-link`.
* `LikeButtonHandler` (719-735): each card button's `liked`; its icon's
  `far` and `fas` classes and inline color. -/
def writes : Ctl → Datum → Prop
  | .loader, d =>
      d = .classOf .loaderEl ("hidden") ∨ d = .styleOf .body ("overflow")
  | .navigation, d =>
      d = .classOf .navbar ("scrolled") ∨ d = .classOf .hamburger ("active") ∨
      d = .classOf .navMenu ("active") ∨ d = .styleOf .body ("overflow") ∨
      (∃ i, d = .classOf (.dropdownItem i) ("active")) ∨
      (∃ i, d = .classOf (.navLink i true) ("active"))
  | .scrollProgress, d => d = .styleOf .progressBar ("width")
  | .scrollAnimations, d => ∃ i, d = .classOf (.animateEl i) ("animated")
  | .counterAnimation, d => ∃ i, d = .textOf (.counterEl i)
  | .destinationFilter, d =>
      (∃ i, d = .classOf (.filterBtn i) ("active")) ∨
      (∃ i, d = .classOf (.destCard i) ("hidden")) ∨
      (∃ i, d = .styleOf (.destCard i) ("animation"))
  | .testimonialsSlider, d =>
      d = .childListOf .dotsContainer ∨
      (∃ i, d = .classOf (.testimonialCard i) ("active")) ∨
      (∃ i, d = .classOf (.sliderDot i) ("active"))
  | .searchModal, d =>
      d = .classOf .searchModalEl ("active") ∨ d = .styleOf .body ("overflow")
  | .backToTop, d => d = .classOf .backToTopBtn ("visible")
  | .formHandler, d =>
      (∃ i, d = .presenceOf (.notificationNode i)) ∨
      (∃ i, d = .presenceOf (.notificationStyle i)) ∨
      d = .fieldValuesOf .contactForm ∨ d = .fieldValuesOf .newsletterForm
  | .galleryLightbox, d =>
      (∃ i, d = .presenceOf (.lightboxNode i)) ∨
      (∃ i, d = .presenceOf (.lightboxStyle i))
  | .parallaxEffect, d =>
      (∃ i, d = .styleOf (.mountain i) ("transform")) ∨
      (∃ i, d = .styleOf (.cloud i) ("transform")) ∨
      d = .styleOf .heroContent ("opacity") ∨
      d = .styleOf .heroContent ("transform")
  | .activeNavLink, d => ∃ i b, d = .classOf (.navLink i b) ("active")
  | .likeButtonHandler, d =>
      (∃ i, d = .classOf (.cardBtn i) ("liked")) ∨
      (∃ i, d = .classOf (.cardIcon i) ("far")) ∨
      (∃ i, d = .classOf (.cardIcon i) ("fas")) ∨
      (∃ i, d = .styleOf (.cardIcon i) ("color"))

/-- C2 counterexample: `Loader` and `SearchModal` are distinct controllers
and both write the document body's inline `overflow` style property (as
does `Navigation`), so the controllers' mutation sets are not pairwise
disjoint. -/
theorem shared_overflow_write :
    Ctl.loader ≠ Ctl.searchModal ∧
    writes .loader (.styleOf .body ("overflow")) ∧
    writes .searchModal (.styleOf .body ("overflow")) ∧
    writes .navigation (.styleOf .body ("overflow")) :=
  ⟨by decide, Or.inr rfl, Or.inr rfl, Or.inr (Or.inr (Or.inr (Or.inl rfl)))⟩

set_option maxHeartbeats 3200000 in
/-- C2 amended: the mutation sets of distinct bootstrap controllers are
pairwise disjoint with exactly two exceptions — the body's inline
`overflow` style property (written by `Loader`, `Navigation` and
`SearchModal`) and the `active` class of the `data-scroll` nav links
(written by both `Navigation` and `ActiveNavLink`). -/
theorem writes_disjoint_except_shared (c1 c2 : Ctl) (hne : c1 ≠ c2)
    (d : Datum) (h1 : writes c1 d) (h2 : writes c2 d) :
    d = .styleOf .body ("overflow") ∨
    ∃ i, d = .classOf (.navLink i true) ("active") := by
  cases c1 <;> cases c2 <;>
    first
      | exact absurd rfl hne
      | (simp only [writes] at h1 h2; aesop)

/-- Witness for C2's amended statement: the body-overflow datum shared by
`Loader` and `SearchModal` is one of the two permitted exceptions. -/
theorem writes_disjoint_except_shared_witness :
    Datum.styleOf .body ("overflow") = .styleOf .body ("overflow") ∨
    ∃ i, Datum.styleOf .body ("overflow") = .classOf (.navLink i true) ("active") :=
  writes_disjoint_except_shared .loader .searchModal (by decide)
    (.styleOf .body ("overflow")) (Or.inr rfl) (Or.inr rfl)
